import Mathlib

/-!
Shallow embedding of the multus-nic device-plugin server
(`pkg/device_plugin/server/server.go`).

The server keeps a fixed array of `TotalDevicesCount` devices and a
cursor `nextDevice` (the watermark).  `listDevice` builds the registry
from the entry count of a directory; `watchDevice` reacts to filesystem
create/remove events by flipping device health at the watermark;
`ListAndWatch` streams snapshots; `Allocate` answers allocation
requests; `Run` restarts the gRPC serve loop with a time-windowed
crash counter.

Conventions of the embedding:
* the device array is a `List Device`; a Go out-of-bounds slice access
  (a runtime panic) is modelled by returning `none`;
* a directory read is an `Option Nat` (its entry count, or `none` when
  the directory cannot be read);
* channel receives are modelled by explicit event messages fed to the
  loop bodies one at a time, in order, exactly as the single goroutine
  processes them;
* elapsed wall-clock seconds are modelled as rationals.
-/

inductive Health where
  | Healthy : Health
  | Unhealthy : Health
deriving DecidableEq, Repr

structure Device where
  ID : String
  Health : Health
deriving DecidableEq, Repr

def TotalDevicesCount : Nat := 40

/-- The mutable server fields touched by the registry logic:
`devices` and `nextDevice` of `MultusNicServer`. -/
structure ServerState where
  devices : List Device
  nextDevice : Nat
deriving DecidableEq, Repr

/-- fsnotify bit for a Create event (`fsnotify.Create`). -/
def fsnotifyCreate : Nat := 1

/-- fsnotify bit for a Remove event (`fsnotify.Remove`). -/
def fsnotifyRemove : Nat := 4

/-- One iteration of the device-building loop of `listDevice`:
ID is the stringified index, health `Unhealthy` iff `i < nextDevice`. -/
def mkDevice (i : Nat) (next : Nat) : Device :=
  { ID := toString i
    Health := if i < next then Health.Unhealthy else Health.Healthy }

/-- The registry built by `listDevice` after a successful directory
read of `count` entries: `s.nextDevice = len(dir)` (no clamping), then
devices `0..TotalDevicesCount-1` with the first `nextDevice` Unhealthy. -/
def initRegistry (count : Nat) : ServerState :=
  { devices := (List.range TotalDevicesCount).map (fun i => mkDevice i count)
    nextDevice := count }

/-- Embedding of `listDevice`: it reads the device directory (`none` =
read error, returned to the caller) and fills the registry. -/
def listDevice (dirRead : Option Nat) : Option ServerState :=
  dirRead.map initRegistry

/-- The assignment `s.devices[i].Health = h` as executed by Go:
`none` models the index-out-of-range runtime fault. -/
def setHealth (devs : List Device) (i : Nat) (h : Health) : Option (List Device) :=
  match devs[i]? with
  | some d => some (devs.set i { d with Health := h })
  | none => none

/-- The Create branch of the watcher's event handler: the guarded
health flip and increment, then `s.notify <- true` unconditionally.
The returned `Bool` is whether a notification was sent. -/
def createAction (s : ServerState) : Option (ServerState × Bool) :=
  if s.nextDevice < TotalDevicesCount then
    match setHealth s.devices s.nextDevice Health.Unhealthy with
    | some ds => some ({ devices := ds, nextDevice := s.nextDevice + 1 }, true)
    | none => none
  else
    some (s, true)

/-- The Remove branch of the watcher's event handler. -/
def removeAction (s : ServerState) : Option (ServerState × Bool) :=
  if 0 < s.nextDevice then
    match setHealth s.devices (s.nextDevice - 1) Health.Healthy with
    | some ds => some ({ devices := ds, nextDevice := s.nextDevice - 1 }, true)
    | none => none
  else
    some (s, true)

/-- Processing of one fsnotify event by the watcher goroutine:
`event.Op&Create == Create` is tried first, then `Op&Remove == Remove`,
any other op only logs. -/
def handleFsOp (s : ServerState) (op : Nat) : Option (ServerState × Bool) :=
  if Nat.land op fsnotifyCreate = fsnotifyCreate then
    createAction s
  else if Nat.land op fsnotifyRemove = fsnotifyRemove then
    removeAction s
  else
    some (s, false)

/-- Pure create/remove filesystem events, as delivered for a watched
directory. -/
inductive FsEvent where
  | create : FsEvent
  | remove : FsEvent
deriving DecidableEq, Repr

def FsEvent.op : FsEvent → Nat
  | FsEvent.create => fsnotifyCreate
  | FsEvent.remove => fsnotifyRemove

/-- The watcher's handling of one create/remove event. -/
def applyEvent (s : ServerState) (e : FsEvent) : Option (ServerState × Bool) :=
  handleFsOp s e.op

/-- Sequential processing of a list of events by the single watcher
goroutine; a panic (`none`) aborts the whole run. -/
def applyEvents : ServerState → List FsEvent → Option ServerState
  | s, [] => some s
  | s, e :: es =>
    match applyEvent s e with
    | some (s1, _) => applyEvents s1 es
    | none => none

/-- A full server run: initialization from a directory with `count`
entries followed by a sequence of watcher events. -/
def runServer (count : Nat) (es : List FsEvent) : Option ServerState :=
  (listDevice (some count)).bind (fun s0 => applyEvents s0 es)

/-- The registry invariant claimed by the spec: full fixed-size array,
watermark in `[0, N]`, and health `Unhealthy` exactly below the
watermark. -/
def RegistryInv (s : ServerState) : Prop :=
  s.devices.length = TotalDevicesCount ∧
  s.nextDevice ≤ TotalDevicesCount ∧
  ∀ i, i < TotalDevicesCount →
    s.devices[i]?.map Device.Health =
      some (if i < s.nextDevice then Health.Unhealthy else Health.Healthy)

instance (s : ServerState) : Decidable (RegistryInv s) := by
  unfold RegistryInv
  exact instDecidableAnd

/-- Messages the watcher's `select` can receive: a value or closure
notice from `w.Events`, a value or closure notice from `w.Errors`, or
context cancellation. -/
inductive WatchMsg where
  | fsEvent : Bool → Nat → WatchMsg
  | errMsg : Bool → WatchMsg
  | ctxDone : WatchMsg
deriving DecidableEq, Repr

inductive LoopCtl where
  | continueLoop : LoopCtl
  | exitLoop : LoopCtl
deriving DecidableEq, Repr

/-- One iteration of the watcher's `for { select { ... } }` loop.
`fsEvent ok op`: `ok = false` hits `continue`; otherwise the event is
handled.  `errMsg ok`: closure (`ok = false`) is the only `return`;
a received error is logged and the loop continues.  `ctxDone`: the
`break` statement leaves only the `select`, so the loop continues. -/
def watchStep (s : ServerState) (m : WatchMsg) : Option (ServerState × Bool × LoopCtl) :=
  match m with
  | WatchMsg.fsEvent ok op =>
    if ok then
      match handleFsOp s op with
      | some (s1, n) => some (s1, n, LoopCtl.continueLoop)
      | none => none
    else
      some (s, false, LoopCtl.continueLoop)
  | WatchMsg.errMsg ok =>
    if ok then some (s, false, LoopCtl.continueLoop)
    else some (s, false, LoopCtl.exitLoop)
  | WatchMsg.ctxDone => some (s, false, LoopCtl.continueLoop)

/-- How a `ListAndWatch` session ends (or fails to). -/
inductive SessionOutcome where
  | rpcError : SessionOutcome
  | cleanExit : SessionOutcome
  | running : SessionOutcome
deriving DecidableEq, Repr

/-- What the session's `select` receives: a notification (tagged with
whether the corresponding `srv.Send` would succeed) or context
cancellation. -/
inductive SessEvent where
  | notifySignal : Bool → SessEvent
  | ctxDone : SessEvent
deriving DecidableEq, Repr

/-- The `for { select { ... } }` loop of `ListAndWatch`: on a
notification the snapshot is sent and the send's error is discarded;
on cancellation the handler returns `nil`. -/
def listAndWatchLoop : List SessEvent → SessionOutcome
  | [] => SessionOutcome.running
  | SessEvent.notifySignal _ :: rest => listAndWatchLoop rest
  | SessEvent.ctxDone :: _ => SessionOutcome.cleanExit

/-- The whole `ListAndWatch` handler: the initial snapshot send is
checked (an error is returned, ending the session), then the loop. -/
def listAndWatch (initialSendOk : Bool) (evs : List SessEvent) : SessionOutcome :=
  if initialSendOk then listAndWatchLoop evs else SessionOutcome.rpcError

/-- The kinds (notification vs cancellation) of a session event list,
forgetting send outcomes. -/
def eventKinds : List SessEvent → List Bool
  | [] => []
  | SessEvent.notifySignal _ :: r => true :: eventKinds r
  | SessEvent.ctxDone :: r => false :: eventKinds r

/-- One container's allocation answer: the `Envs` map binds
`MULTUS_NICS` to the comma-joined requested device IDs. -/
structure ContainerAllocateResponse where
  Envs : List (String × String)
deriving DecidableEq, Repr

/-- The body of the loop over `reqs.ContainerRequests` in `Allocate`. -/
def allocateContainer (devicesIDs : List String) : ContainerAllocateResponse :=
  { Envs := [( "MULTUS_NICS", String.intercalate "," devicesIDs)] }

/-- `Allocate`: one response per container request, in order; the
server state is read but never written. -/
def Allocate (s : ServerState) (reqs : List (List String)) :
    ServerState × List ContainerAllocateResponse :=
  (s, reqs.map allocateContainer)

/-- The restart bookkeeping run after one failure of `s.srv.Serve`:
fatal (`none`) when the counter already exceeds 5, otherwise reset to
1 after more than 3600 seconds since the last crash, else increment. -/
def restartUpdate (restartCount : Nat) (timeSinceLastCrash : ℚ) : Option Nat :=
  if 5 < restartCount then none
  else if 3600 < timeSinceLastCrash then some 1
  else some (restartCount + 1)

/-- The serve loop's crash accounting over a run of consecutive serve
failures, given the seconds elapsed before each failure; `none` is the
`log.Fatal` exit. -/
def runRestarts : Nat → List ℚ → Option Nat
  | count, [] => some count
  | count, t :: ts =>
    match restartUpdate count t with
    | some c => runRestarts c ts
    | none => none

/-! ### Basic lemmas about the watcher's event handling -/

lemma applyEvent_create (s : ServerState) : applyEvent s FsEvent.create = createAction s := rfl

lemma applyEvent_remove (s : ServerState) : applyEvent s FsEvent.remove = removeAction s := rfl

lemma applyEvents_append (s : ServerState) (es1 es2 : List FsEvent) :
    applyEvents s (es1 ++ es2) = (applyEvents s es1).bind (fun s1 => applyEvents s1 es2) := by
  induction es1 generalizing s with
  | nil => rfl
  | cons e es ih =>
    simp only [List.cons_append, applyEvents]
    cases h : applyEvent s e with
    | some p => simp [ih]
    | none => rfl

lemma setHealth_of_lt {devs : List Device} {i : Nat} (hi : i < devs.length) (hl : Health) :
    setHealth devs i hl = some (devs.set i { devs[i] with Health := hl }) := by
  simp [setHealth, List.getElem?_eq_getElem hi]

lemma setHealth_of_ge {devs : List Device} {i : Nat} (hi : devs.length ≤ i) (hl : Health) :
    setHealth devs i hl = none := by
  simp [setHealth, List.getElem?_eq_none hi]

/-! ### The registry invariant: establishment and preservation -/

lemma registryInv_initRegistry {count : Nat} (hc : count ≤ TotalDevicesCount) :
    RegistryInv (initRegistry count) := by
  refine ⟨by simp [initRegistry], hc, ?_⟩
  intro i hi
  simp [initRegistry, List.getElem?_map, List.getElem?_range hi, mkDevice]

lemma registryInv_createAction {s s1 : ServerState} {b : Bool}
    (hInv : RegistryInv s) (h : createAction s = some (s1, b)) : RegistryInv s1 := by
  obtain ⟨hlen, hle, hget⟩ := hInv
  unfold createAction at h
  by_cases hlt : s.nextDevice < TotalDevicesCount
  · rw [if_pos hlt] at h
    rw [setHealth_of_lt (by omega)] at h
    injection h with h1
    injection h1 with h2 h3
    subst h2
    refine ⟨?_, ?_, ?_⟩
    · dsimp only
      simp [hlen]
    · dsimp only
      omega
    · intro i hi
      dsimp only
      rw [List.getElem?_set]
      by_cases hiw : s.nextDevice = i
      · subst hiw
        rw [if_pos rfl, if_pos (by omega), if_pos (by omega)]
        rfl
      · rw [if_neg hiw, hget i hi]
        congr 1
        by_cases hc : i < s.nextDevice
        · rw [if_pos hc, if_pos (by omega)]
        · rw [if_neg hc, if_neg (by omega)]
  · rw [if_neg hlt] at h
    injection h with h1
    injection h1 with h2 h3
    subst h2
    exact ⟨hlen, hle, hget⟩

lemma registryInv_removeAction {s s1 : ServerState} {b : Bool}
    (hInv : RegistryInv s) (h : removeAction s = some (s1, b)) : RegistryInv s1 := by
  obtain ⟨hlen, hle, hget⟩ := hInv
  unfold removeAction at h
  by_cases hpos : 0 < s.nextDevice
  · rw [if_pos hpos] at h
    rw [setHealth_of_lt (by omega)] at h
    injection h with h1
    injection h1 with h2 h3
    subst h2
    refine ⟨?_, ?_, ?_⟩
    · dsimp only
      simp [hlen]
    · dsimp only
      omega
    · intro i hi
      dsimp only
      rw [List.getElem?_set]
      by_cases hiw : s.nextDevice - 1 = i
      · subst hiw
        rw [if_pos rfl, if_pos (by omega), if_neg (by omega)]
        rfl
      · rw [if_neg hiw, hget i hi]
        congr 1
        by_cases hc : i < s.nextDevice - 1
        · rw [if_pos hc, if_pos (by omega)]
        · rw [if_neg hc, if_neg (by omega)]
  · rw [if_neg hpos] at h
    injection h with h1
    injection h1 with h2 h3
    subst h2
    exact ⟨hlen, hle, hget⟩

lemma registryInv_applyEvent {s s1 : ServerState} {b : Bool} {e : FsEvent}
    (hInv : RegistryInv s) (h : applyEvent s e = some (s1, b)) : RegistryInv s1 := by
  cases e
  · exact registryInv_createAction hInv h
  · exact registryInv_removeAction hInv h

lemma registryInv_applyEvents {es : List FsEvent} :
    ∀ {s s1 : ServerState}, RegistryInv s → applyEvents s es = some s1 → RegistryInv s1 := by
  induction es with
  | nil =>
    intro s s1 hInv h
    injection h with h1
    subst h1
    exact hInv
  | cons e es ih =>
    intro s s1 hInv h
    unfold applyEvents at h
    cases happ : applyEvent s e with
    | some p =>
      rw [happ] at h
      exact ih (registryInv_applyEvent hInv happ) h
    | none => rw [happ] at h; exact absurd h (by simp)

/-! ### A create/remove round trip restores the registry -/

lemma list_set_self {α : Type} (l : List α) (i : Nat) (h : i < l.length) :
    l.set i l[i] = l := by
  apply List.ext_getElem?
  intro n
  rw [List.getElem?_set]
  by_cases hin : i = n
  · subst hin
    rw [if_pos rfl, if_pos h, List.getElem?_eq_getElem h]
  · rw [if_neg hin]

lemma applyEvents_roundtrip (K : Nat) :
    ∀ s : ServerState,
      s.devices.length = TotalDevicesCount →
      s.nextDevice + K ≤ TotalDevicesCount →
      (∀ i, s.nextDevice ≤ i → i < s.nextDevice + K →
        s.devices[i]?.map Device.Health = some Health.Healthy) →
      applyEvents s (List.replicate K FsEvent.create ++ List.replicate K FsEvent.remove) =
        some s := by
  induction K with
  | zero =>
    intro s _ _ _
    rfl
  | succ K ih =>
    intro s hlen hK hH
    have hlt : s.nextDevice < TotalDevicesCount := by omega
    have hwlen : s.nextDevice < s.devices.length := by omega
    have hlist :
        List.replicate (K + 1) FsEvent.create ++ List.replicate (K + 1) FsEvent.remove =
          FsEvent.create ::
            ((List.replicate K FsEvent.create ++ List.replicate K FsEvent.remove) ++
              [FsEvent.remove]) := by
      rw [List.replicate_succ FsEvent.create, List.replicate_succ' K FsEvent.remove]
      simp
    rw [hlist]
    have hcreate : applyEvent s FsEvent.create =
        some (⟨s.devices.set s.nextDevice
                { s.devices[s.nextDevice] with Health := Health.Unhealthy },
              s.nextDevice + 1⟩, true) := by
      rw [applyEvent_create]
      unfold createAction
      rw [if_pos hlt, setHealth_of_lt hwlen]
    simp only [applyEvents, hcreate]
    rw [applyEvents_append]
    have hinner :
        applyEvents
          ⟨s.devices.set s.nextDevice
              { s.devices[s.nextDevice] with Health := Health.Unhealthy },
            s.nextDevice + 1⟩
          (List.replicate K FsEvent.create ++ List.replicate K FsEvent.remove) =
          some ⟨s.devices.set s.nextDevice
              { s.devices[s.nextDevice] with Health := Health.Unhealthy },
            s.nextDevice + 1⟩ := by
      apply ih
      · dsimp only
        simp [hlen]
      · dsimp only
        omega
      · intro i h1 h2
        dsimp only at h1 h2 ⊢
        rw [List.getElem?_set, if_neg (by omega)]
        exact hH i (by omega) (by omega)
    rw [hinner]
    have hd : (s.devices[s.nextDevice]).Health = Health.Healthy := by
      have hh := hH s.nextDevice (by omega) (by omega)
      rw [List.getElem?_eq_getElem hwlen] at hh
      simpa using hh
    have hremove :
        applyEvent
          ⟨s.devices.set s.nextDevice
              { s.devices[s.nextDevice] with Health := Health.Unhealthy },
            s.nextDevice + 1⟩ FsEvent.remove = some (s, true) := by
      rw [applyEvent_remove]
      unfold removeAction
      dsimp only
      rw [if_pos (by omega)]
      have hwlen2 : s.nextDevice <
          (s.devices.set s.nextDevice
            { s.devices[s.nextDevice] with Health := Health.Unhealthy }).length := by
        simpa using hwlen
      have hsimp : s.nextDevice + 1 - 1 = s.nextDevice := rfl
      rw [hsimp, setHealth_of_lt hwlen2]
      rw [List.getElem_set_self hwlen2, List.set_set]
      have hback :
          ({ { s.devices[s.nextDevice] with Health := Health.Unhealthy } with
              Health := Health.Healthy } : Device) = s.devices[s.nextDevice] := by
        cases hdev : s.devices[s.nextDevice] with
        | mk id hl =>
          rw [hdev] at hd
          simp at hd
          simp [hd]
      rw [hback, list_set_self s.devices s.nextDevice hwlen]
    rw [Option.some_bind]
    simp only [applyEvents, hremove]

/-! ### Claims -/

/-- C1 (amended): for every reachable state of the server — initialization
from a directory with at most `TotalDevicesCount` entries followed by any
sequence of create/remove events — the watermark lies in `[0, N]` and a
device is Unhealthy exactly when its index is below the watermark. -/
theorem C1_registry_invariant (count : Nat) (es : List FsEvent) (s : ServerState)
    (hc : count ≤ TotalDevicesCount) (h : runServer count es = some s) :
    RegistryInv s := by
  have h0 : applyEvents (initRegistry count) es = some s := by
    simpa [runServer, listDevice] using h
  exact registryInv_applyEvents (registryInv_initRegistry hc) h0

/-- Witness for C1: the state after initializing from 3 directory entries
and one create event satisfies the invariant. -/
theorem C1_registry_invariant_witness :
    RegistryInv ((runServer 3 [FsEvent.create]).getD ⟨[], 0⟩) :=
  C1_registry_invariant 3 [FsEvent.create] _ (by decide) rfl

/-- C1 counterexample: with 41 directory entries at startup the reachable
initial state (empty event sequence) has watermark 41, outside `[0, 40]`;
the claim as stated, over all initialization counts, is false. -/
theorem C1_invariant_counterexample :
    (runServer 41 []).map ServerState.nextDevice = some 41 ∧
    ¬ (41 ≤ TotalDevicesCount) := ⟨rfl, by decide⟩

/-- C2 (amended): a create event at watermark `N` and a remove event at
watermark `0` both leave the registry and the watermark unchanged, but
each DOES emit a notification (the send sits outside the guard). -/
theorem C2_saturated_events (s : ServerState) :
    (s.nextDevice = TotalDevicesCount → applyEvent s FsEvent.create = some (s, true)) ∧
    (s.nextDevice = 0 → applyEvent s FsEvent.remove = some (s, true)) := by
  constructor
  · intro h
    rw [applyEvent_create]
    unfold createAction
    rw [if_neg (by omega)]
  · intro h
    rw [applyEvent_remove]
    unfold removeAction
    rw [if_neg (by omega)]

/-- Witness for C2: the no-op transitions with their notification at two
concrete states. -/
theorem C2_saturated_events_witness :
    applyEvent ⟨[], TotalDevicesCount⟩ FsEvent.create = some (⟨[], TotalDevicesCount⟩, true) ∧
    applyEvent ⟨[], 0⟩ FsEvent.remove = some (⟨[], 0⟩, true) :=
  ⟨(C2_saturated_events ⟨[], TotalDevicesCount⟩).1 rfl,
   (C2_saturated_events ⟨[], 0⟩).2 rfl⟩

/-- C2 counterexample: the claim that a create event at watermark `N`
emits no notification is false — `s.notify <- true` runs on every create
event, also when the guard rejects the update. -/
theorem C2_no_notification_counterexample :
    (applyEvent ⟨[], TotalDevicesCount⟩ FsEvent.create).map Prod.snd = some true ∧
    some true ≠ some false :=
  ⟨rfl, by decide⟩

/-- C3 (amended): `listDevice` fails exactly when the directory cannot be
read; on success it builds `TotalDevicesCount` devices with IDs the
stringified indices, marks device `i` Unhealthy exactly when `i < count`
(hence the first `min count N` devices), and sets the watermark to the
raw entry count `count`, NOT clamped to `N`; with `count = 3` devices
0–2 are Unhealthy, 3–39 Healthy, and the watermark is 3. -/
theorem C3_listDevice_contract :
    listDevice none = none ∧
    (∀ count, (listDevice (some count)).map ServerState.nextDevice = some count) ∧
    (∀ count i, i < TotalDevicesCount →
      (listDevice (some count)).bind (fun s => s.devices[i]?) =
        some { ID := toString i
               Health := if i < count then Health.Unhealthy else Health.Healthy }) ∧
    (listDevice (some 3)).map (fun s => (s.nextDevice, s.devices.map Device.Health)) =
      some (3, List.replicate 3 Health.Unhealthy ++ List.replicate 37 Health.Healthy) := by
  refine ⟨rfl, fun count => rfl, ?_, by decide⟩
  intro count i hi
  simp [listDevice, initRegistry, List.getElem?_map, List.getElem?_range hi, mkDevice]

/-- Witness for C3: device 2 after a 3-entry startup is Unhealthy with
ID "2". -/
theorem C3_listDevice_contract_witness :
    (listDevice (some 3)).bind (fun s => s.devices[2]?) =
      some { ID := "2", Health := Health.Unhealthy } := by
  have h := C3_listDevice_contract.2.2.1 3 2 (by decide)
  simpa using h

/-- C3 counterexample: with 41 entries the watermark is 41, not
`min 41 40 = 40`, so the claimed clamping to `min count N` is false. -/
theorem C3_clamping_counterexample :
    (listDevice (some 41)).map ServerState.nextDevice = some 41 ∧
    min 41 TotalDevicesCount = 40 ∧ (41 : Nat) ≠ 40 :=
  ⟨rfl, by decide, by decide⟩

/-- C4 (amended): from any state satisfying the registry invariant and
any `K` with `watermark + K ≤ N`, applying `K` create events followed by
`K` remove events returns the registry (health values and watermark)
exactly to its prior state. -/
theorem C4_create_remove_roundtrip (s : ServerState) (K : Nat)
    (hInv : RegistryInv s) (hK : s.nextDevice + K ≤ TotalDevicesCount) :
    applyEvents s (List.replicate K FsEvent.create ++ List.replicate K FsEvent.remove) =
      some s := by
  refine applyEvents_roundtrip K s hInv.1 hK ?_
  intro i h1 h2
  rw [hInv.2.2 i (by omega), if_neg (by omega)]

/-- Witness for C4: the state reached from a 2-entry startup is restored
by 3 creates followed by 3 removes. -/
theorem C4_create_remove_roundtrip_witness :
    applyEvents ((listDevice (some 2)).getD ⟨[], 0⟩)
        (List.replicate 3 FsEvent.create ++ List.replicate 3 FsEvent.remove) =
      some ((listDevice (some 2)).getD ⟨[], 0⟩) :=
  C4_create_remove_roundtrip _ 3 (by decide) (by decide)

/-- C4 counterexample: from the reachable state with watermark 39, two
creates (the second saturates at `N = 40` and is dropped) followed by two
removes end at watermark 38, not 39 — the round trip fails once the
create run saturates, so the claim over every state and every `K` is
false. -/
theorem C4_roundtrip_counterexample :
    (runServer 39 (List.replicate 2 FsEvent.create ++ List.replicate 2 FsEvent.remove)).map
        ServerState.nextDevice = some 38 ∧
    (listDevice (some 39)).map ServerState.nextDevice = some 39 ∧ (38 : Nat) ≠ 39 :=
  ⟨rfl, rfl, by decide⟩

/-- Any two session event lists with the same kinds (notification vs
cancellation), regardless of the update sends' outcomes, drive the
`ListAndWatch` loop to the same outcome: update-send results are read
by nobody. -/
lemma listAndWatchLoop_kinds :
    ∀ evs evs2 : List SessEvent, eventKinds evs = eventKinds evs2 →
      listAndWatchLoop evs = listAndWatchLoop evs2 := by
  intro evs
  induction evs with
  | nil =>
    intro evs2 h
    cases evs2 with
    | nil => rfl
    | cons e r =>
      cases e <;> simp [eventKinds] at h
  | cons e r ih =>
    intro evs2 h
    cases evs2 with
    | nil => cases e <;> simp [eventKinds] at h
    | cons e2 r2 =>
      cases e <;> cases e2 <;> simp [eventKinds] at h <;> simp [listAndWatchLoop]
      exact ih r2 h

/-- C5 (amended): a failure of the initial snapshot send surfaces as an
RPC error and ends the session, but the error of every subsequent update
send is discarded: the session continues and its outcome is independent
of the update sends' results. -/
theorem C5_send_error_handling :
    (∀ evs, listAndWatch false evs = SessionOutcome.rpcError) ∧
    (∀ (b : Bool) (evs evs2 : List SessEvent), eventKinds evs = eventKinds evs2 →
      listAndWatch b evs = listAndWatch b evs2) := by
  constructor
  · intro evs
    rfl
  · intro b evs evs2 h
    cases b with
    | true =>
      show listAndWatchLoop evs = listAndWatchLoop evs2
      exact listAndWatchLoop_kinds evs evs2 h
    | false => rfl

/-- Witness for C5: a failed initial send errors out, and a session whose
only update send fails ends exactly like one whose update send succeeds. -/
theorem C5_send_error_handling_witness :
    listAndWatch false [] = SessionOutcome.rpcError ∧
    listAndWatch true [SessEvent.notifySignal false, SessEvent.ctxDone] =
      listAndWatch true [SessEvent.notifySignal true, SessEvent.ctxDone] :=
  ⟨C5_send_error_handling.1 [],
   C5_send_error_handling.2 true _ _ (by decide)⟩

/-- C5 counterexample: a session whose initial send succeeds and whose
update send then fails does NOT return an RPC error — it keeps looping and
later ends cleanly on cancellation, so a failed send does not always end
the session as an error. -/
theorem C5_continue_after_failed_send_counterexample :
    listAndWatch true [SessEvent.notifySignal false, SessEvent.ctxDone] =
      SessionOutcome.cleanExit ∧
    SessionOutcome.cleanExit ≠ SessionOutcome.rpcError :=
  ⟨rfl, by decide⟩

/-- C6: behavior of one iteration of the watcher loop, as coded: context
cancellation hits a `break` that leaves only the `select`, so the loop
CONTINUES (divergence from the claim); an error received from the
filesystem-event source is logged and the loop continues; only closure of
the error channel exits the loop; a closed events channel also continues. -/
theorem C6_watch_loop_behavior (s : ServerState) :
    watchStep s WatchMsg.ctxDone = some (s, false, LoopCtl.continueLoop) ∧
    watchStep s (WatchMsg.errMsg true) = some (s, false, LoopCtl.continueLoop) ∧
    watchStep s (WatchMsg.errMsg false) = some (s, false, LoopCtl.exitLoop) ∧
    watchStep s (WatchMsg.fsEvent false 0) = some (s, false, LoopCtl.continueLoop) :=
  ⟨rfl, rfl, rfl, rfl⟩

/-- C7 (confirmed): on each serve failure that does not trip the fatal
check, the restart counter resets to 1 when more than one hour (3600 s)
elapsed since the previous crash and increments otherwise; in the
scenario of two failures within 10 minutes followed by over an hour of
serving, the third failure leaves the counter at 1, not 3. -/
theorem C7_restart_window :
    (∀ (c : Nat) (t : ℚ), c ≤ 5 →
      restartUpdate c t = some (if 3600 < t then 1 else c + 1)) ∧
    runRestarts 0 [60, 600, 3700] = some 1 := by
  constructor
  · intro c t hc
    unfold restartUpdate
    rw [if_neg (by omega)]
    by_cases h : (3600 : ℚ) < t
    · rw [if_pos h, if_pos h]
    · rw [if_neg h, if_neg h]
  · decide

/-- Witness for C7: a failure 3700 s after the previous crash resets the
counter from 2 to 1. -/
theorem C7_restart_window_witness :
    restartUpdate 2 3700 = some 1 ∧ runRestarts 0 [60, 600, 3700] = some 1 := by
  refine ⟨?_, C7_restart_window.2⟩
  have h := C7_restart_window.1 2 3700 (by omega)
  rw [if_pos (by norm_num)] at h
  exact h

/-- C8 (amended): the fatal check fires only once the counter already
exceeds 5 when a failure arrives, and the counter is updated after the
check — so six consecutive rapid failures all restart (the sixth leaves
the counter at 6) and the fatal exit happens on the seventh rapid
failure. -/
theorem C8_retry_cap :
    (∀ (c : Nat) (t : ℚ), 5 < c → restartUpdate c t = none) ∧
    runRestarts 0 [1, 1, 1, 1, 1, 1] = some 6 ∧
    runRestarts 0 [1, 1, 1, 1, 1, 1, 1] = none := by
  refine ⟨?_, by decide, by decide⟩
  intro c t hc
  unfold restartUpdate
  rw [if_pos hc]

/-- Witness for C8: a failure arriving with the counter at 6 is fatal. -/
theorem C8_retry_cap_witness : restartUpdate 6 1 = none :=
  C8_retry_cap.1 6 1 (by omega)

/-- C8 counterexample: a sixth rapid serve failure (every crash within an
hour of the previous one) does NOT trigger the fatal exit — the loop
restarts with the counter at 6; the claim that the sixth rapid failure is
fatal is false. -/
theorem C8_sixth_failure_counterexample :
    runRestarts 0 [1, 1, 1, 1, 1, 1] = some 6 ∧ (some 6 ≠ (none : Option Nat)) :=
  ⟨by decide, by decide⟩

/-- C9 (confirmed): `Allocate` returns exactly one container response per
container request, in order, whose environment binds `MULTUS_NICS` to the
comma-joined device IDs of that request; for IDs ["3", "7"] the value is
"3,7"; the server state (devices and watermark) is left unchanged. -/
theorem C9_allocate_contract (s : ServerState) (reqs : List (List String)) (i : Nat) :
    (Allocate s reqs).1 = s ∧
    (Allocate s reqs).2.length = reqs.length ∧
    (Allocate s reqs).2[i]? = reqs[i]?.map (fun ids =>
      { Envs := [( "MULTUS_NICS", String.intercalate "," ids)] }) ∧
    (Allocate s [["3", "7"]]).2 = [{ Envs := [( "MULTUS_NICS", "3,7")] }] := by
  refine ⟨rfl, ?_, ?_, rfl⟩
  · simp [Allocate]
  · show (reqs.map allocateContainer)[i]? = _
    rw [List.getElem?_map]
    rfl

/-- C10 (confirmed): both watcher array accesses are guarded in-bounds
whenever the watermark is within `[0, N]` (with the array at its full
length `N`); initialization stores the raw directory entry count in the
watermark without clamping; consequently, after a startup count above
`N`, the very first remove event reaches the unguarded access at index
`count - 1 ≥ N` and faults. -/
theorem C10_watcher_access_bounds :
    (∀ s : ServerState, s.devices.length = TotalDevicesCount →
      s.nextDevice ≤ TotalDevicesCount →
      (applyEvent s FsEvent.create).isSome ∧ (applyEvent s FsEvent.remove).isSome) ∧
    (∀ count, (initRegistry count).nextDevice = count) ∧
    (∀ count, TotalDevicesCount < count → runServer count [FsEvent.remove] = none) := by
  refine ⟨?_, fun count => rfl, ?_⟩
  · intro s hlen hle
    constructor
    · rw [applyEvent_create]
      unfold createAction
      by_cases hlt : s.nextDevice < TotalDevicesCount
      · rw [if_pos hlt, setHealth_of_lt (by omega)]
        rfl
      · rw [if_neg hlt]
        rfl
    · rw [applyEvent_remove]
      unfold removeAction
      by_cases hpos : 0 < s.nextDevice
      · rw [if_pos hpos, setHealth_of_lt (by omega)]
        rfl
      · rw [if_neg hpos]
        rfl
  · intro count hc
    have h1 : applyEvent (initRegistry count) FsEvent.remove = none := by
      rw [applyEvent_remove]
      unfold removeAction initRegistry
      dsimp only
      rw [if_pos (by omega), setHealth_of_ge (by simp; omega)]
    show applyEvents (initRegistry count) [FsEvent.remove] = none
    simp [applyEvents, h1]

/-- Witness for C10: from a 5-entry startup both accesses are in bounds;
from a 41-entry startup the first remove event faults. -/
theorem C10_watcher_access_bounds_witness :
    ((applyEvent ((listDevice (some 5)).getD ⟨[], 0⟩) FsEvent.create).isSome ∧
      (applyEvent ((listDevice (some 5)).getD ⟨[], 0⟩) FsEvent.remove).isSome) ∧
    runServer 41 [FsEvent.remove] = none :=
  ⟨C10_watcher_access_bounds.1 _ (by decide) (by decide),
   C10_watcher_access_bounds.2.2 41 (by decide)⟩
